import Mathlib

/-!
Shallow embedding of `examples/pytorch/graphsage/dist/train_dist_drpa_ogbn-papers.py`,
a distributed GraphSAGE training driver.  The module-level script (the
`__main__` block), the `run` training loop, the `GraphSAGE` model construction
and forward pass, and the per-parameter gradient all-reduce are modelled as
executable Lean definitions; theorems about them settle the specification
claims.
-/

namespace TrainDistDrpa

/-- Python exceptions that the script can raise at the modelled sites. -/
inductive PyError where
  | typeError (msg : String)
  | nameError (name : String)
  | assertionError (msg : String)
  | dglError (msg : String)
  | keyError (key : String)
deriving DecidableEq, Repr

/-- The bare names bound at module level of the script by its `import` /
`from ... import ...` statements and its own `def` / `class` statements
(lines 10-30, 37, 71, 81, 189).  `from dgl import DGLGraph` binds only
`DGLGraph`; no statement binds the bare name `DGLError`.  `torch_ccl` is
bound when its guarded import succeeds. -/
def moduleBoundNames : List String :=
  ["os", "sys", "gc", "json", "argparse", "time", "np", "th", "nn", "F",
   "dgl", "DGLGraph", "load_tensors", "load_graphs", "register_data_args",
   "load_data", "SAGEConv", "optim", "mp", "dist", "load_reddit", "load_ogb",
   "drpa", "torch_ccl", "GraphSAGE", "evaluate", "run", "main"]

/-- Evaluating `raise DGLError("Error: Dataset not found.")` (line 255): if the
name `DGLError` were bound the constructed exception would be raised; an
unbound name makes the raise statement itself fail with a `NameError`. -/
def raiseUnknownDataset : PyError :=
  if "DGLError" ∈ moduleBoundNames then .dglError "Error: Dataset not found."
  else .nameError "DGLError"

/-- `os.path.join` restricted to the shapes used by the script: components are
joined with `/`, an empty accumulator (the initial `part_config = ""`) is
replaced by the next component. -/
def osPathJoin (parts : List String) : String :=
  parts.foldl (fun acc p => if acc = "" then p else acc ++ "/" ++ p) ""

/-- Dataset dispatch (lines 249-255): `ogbn-papers100M` yields the partition
config path `os.path.join("", "Libra_result_ogbn-papers100M",
str(nc) + "Communities", "ogbn-papers100M.json")` with `nc = world_size`;
any other dataset reaches the `raise DGLError(...)` statement. -/
def partConfigPath (dataset : String) (worldSize : Nat) : Except PyError String :=
  if dataset = "ogbn-papers100M" then
    .ok (osPathJoin ["", "Libra_result_ogbn-papers100M",
                     toString worldSize ++ "Communities", "ogbn-papers100M.json"])
  else
    .error raiseUnknownDataset

/-- The three assertions on the rank's partition entry (lines 264-266), in
source order; each `assert cond, msg` raises `AssertionError(msg)` when the
key is absent. -/
def checkPartFiles (keys : List String) : Except PyError Unit :=
  if "node_feats" ∉ keys then
    .error (.assertionError "the partition does not contain node features.")
  else if "edge_feats" ∉ keys then
    .error (.assertionError "the partition does not contain edge feature.")
  else if "part_graph" ∉ keys then
    .error (.assertionError "the partition does not contain graph structure.")
  else
    .ok ()

/-- Tensor dtypes relevant to the script (`.long()` converts to int64). -/
inductive DType where
  | float32
  | int32
  | int64
  | uint8
deriving DecidableEq, Repr

/-- A tensor, abstracted to its dtype and flat integer contents. -/
structure Tensor where
  dtype : DType
  vals : List Int
deriving DecidableEq, Repr

/-- `tensor.long()`: cast to int64, contents unchanged (the modelled tensors
hold integral values). -/
def Tensor.long (t : Tensor) : Tensor := { t with dtype := .int64 }

/-- A graph's `ndata` dictionary: Python dict lookup semantics. -/
def NData : Type := String → Option Tensor

/-- Python dict assignment `nd[k] = v`. -/
def ndataSet (nd : NData) (k : String) (v : Tensor) : NData :=
  fun k' => if k' = k then some v else nd k'

/-- The tensors returned by `load_tensors(part_files['node_feats'])` that the
script reads (lines 274-278). -/
structure NodeFeatsDict where
  feat : Tensor
  label : Tensor
  train_mask : Tensor
  test_mask : Tensor
  val_mask : Tensor
deriving DecidableEq, Repr

/-- Lines 274-280: store the five loaded tensors in `graph.ndata` under the
same keys, then replace the label with its `.long()` conversion. -/
def storePartData (nd0 : NData) (nf : NodeFeatsDict) : NData :=
  let nd1 := ndataSet nd0 "feat" nf.feat
  let nd2 := ndataSet nd1 "label" nf.label
  let nd3 := ndataSet nd2 "train_mask" nf.train_mask
  let nd4 := ndataSet nd3 "test_mask" nf.test_mask
  let nd5 := ndataSet nd4 "val_mask" nf.val_mask
  match nd5 "label" with
  | some t => ndataSet nd5 "label" t.long
  | none => nd5

/-- One entry `part_metadata['part-{rank}']` of the partition metadata JSON:
the set of keys present, and the file names the script reads from it. -/
structure PartEntry where
  keys : List String
  nodeFeatsFile : String
  edgeFeatsFile : String
  partGraphFile : String
deriving DecidableEq, Repr

/-- The partition metadata loaded from the config JSON (lines 259-272). -/
structure PartMetadata where
  parts : String → Option PartEntry
  numParts : Nat
  nodeMap : List Nat

/-- The command-line arguments the modelled part of the script reads. -/
structure TopArgs where
  dataset : String
  worldSize : Nat
  rank : Nat
  nr : Int
  nLayers : Nat
  nEpochs : Nat
  val : Bool
deriving DecidableEq, Repr

/-- Parameter list of `def main(graph, data)` (line 189). -/
def mainParams : List String := ["graph", "data"]

/-- Positional arguments of the call `main(gobj, data, args.dataset)`
(line 288). -/
def mainCallArgs : List String := ["gobj", "data", "args.dataset"]

/-- Python call semantics for a function with only positional parameters and
no defaults: the argument count must equal the parameter count, else the call
raises a `TypeError` before the body runs. -/
def pyCallCheck (fname : String) (paramCount argCount : Nat) : Except PyError Unit :=
  if argCount = paramCount then .ok ()
  else .error (.typeError (fname ++ "() takes " ++ toString paramCount ++
    " positional arguments but " ++ toString argCount ++ " were given"))

/-- Observable actions of the `__main__` block after the dataset dispatch
(lines 257-301). -/
inductive TopEvent where
  | openConfig (path : String)
  | loadTensorsFile (file : String)
  | loadGraphsFile (file : String)
  | constructDrpa (rank numParts : Nat) (nodeMap : List Nat) (nr : Int) (nLayers : Nat)
  | enterMain
  | enterRun
  | drpaFinalize
  | barrier
deriving DecidableEq, Repr

/-- Outcome of executing the modelled `__main__` block: the events performed,
the final `ndata` of the partition graph when the script got that far, and
normal completion or the propagated exception. -/
structure TopResult where
  trace : List TopEvent
  ndata : Option NData
  outcome : Except PyError Unit

/-- The `__main__` block from the dataset dispatch to the final barrier
(lines 249-301), parameterised by the parsed arguments, the partition
metadata the config file holds, the tensors `load_tensors` returns, and the
`ndata` of the graph `load_graphs` returns. -/
def topLevel (a : TopArgs) (meta : PartMetadata) (nf : NodeFeatsDict)
    (gnd : NData) : TopResult :=
  match partConfigPath a.dataset a.worldSize with
  | .error e => ⟨[], none, .error e⟩
  | .ok path =>
    let tr0 := [TopEvent.openConfig path]
    match meta.parts ("part-" ++ toString a.rank) with
    | none => ⟨tr0, none, .error (.keyError ("part-" ++ toString a.rank))⟩
    | some entry =>
      match checkPartFiles entry.keys with
      | .error e => ⟨tr0, none, .error e⟩
      | .ok _ =>
        let tr1 := tr0 ++ [TopEvent.loadTensorsFile entry.nodeFeatsFile,
                           TopEvent.loadGraphsFile entry.partGraphFile]
        let nd := storePartData gnd nf
        let tr2 := tr1 ++ [TopEvent.constructDrpa a.rank meta.numParts
                             meta.nodeMap a.nr a.nLayers]
        match pyCallCheck "main" mainParams.length mainCallArgs.length with
        | .error e => ⟨tr2, some nd, .error e⟩
        | .ok _ =>
          ⟨tr2 ++ [TopEvent.enterMain, TopEvent.enterRun,
                   TopEvent.drpaFinalize, TopEvent.barrier], some nd, .ok ()⟩

/-- A model parameter as the gradient-synchronisation loop sees it:
its `requires_grad` flag and its current gradient (None or a value,
abstracted to a single integer). -/
structure Param where
  requiresGrad : Bool
  grad : Option Int
deriving DecidableEq, Repr

/-- Collective-communication reduction operators. -/
inductive ReduceOp where
  | sum
  | prod
  | min
  | max
deriving DecidableEq, Repr

/-- Observable actions of one execution of `run` (lines 143-186). -/
inductive RunEvent where
  | modelTrain
  | forwardPass
  | lossCompute
  | zeroGrad
  | backwardPass
  | gradAllReduce (i : Nat) (op : ReduceOp)
  | optStep
  | valEvaluate
  | valAllReduce (op : ReduceOp)
  | testEvaluate
  | testAllReduce (op : ReduceOp)
deriving DecidableEq, Repr

/-- The gradient-synchronisation loop (lines 156-159): for each parameter, in
order, an `all_reduce(param.grad.data, op=ReduceOp.SUM)` is issued exactly
when `param.requires_grad and param.grad is not None`; `i` is the position of
the parameter in `model.parameters()`. -/
def gradSyncEvents : Nat → List Param → List RunEvent
  | _, [] => []
  | i, p :: ps =>
    (if p.requiresGrad && p.grad.isSome then [RunEvent.gradAllReduce i .sum] else [])
      ++ gradSyncEvents (i + 1) ps

/-- One iteration of the epoch loop (lines 143-176): `model.train()`, forward,
loss, `optimizer.zero_grad()`, `loss.backward()`, the gradient all-reduce
loop, `optimizer.step()`, then the optional validation block. -/
def epochTrace (ps : List Param) (val : Bool) : List RunEvent :=
  [RunEvent.modelTrain, RunEvent.forwardPass, RunEvent.lossCompute,
   RunEvent.zeroGrad, RunEvent.backwardPass]
  ++ gradSyncEvents 0 ps
  ++ [RunEvent.optStep]
  ++ (if val then [RunEvent.valEvaluate, RunEvent.valAllReduce .sum] else [])

/-- The body of `run` after setup (lines 143-186): the epoch loop runs
`n_epochs` times, then a single test-set evaluation and accuracy all-reduce
are performed. -/
def runTrace (nEpochs : Nat) (ps : List Param) (val : Bool) : List RunEvent :=
  ((List.range nEpochs).map fun _ => epochTrace ps val).flatten
  ++ [RunEvent.testEvaluate, RunEvent.testAllReduce .sum]

/-- The gradient contribution of every rank at parameter index `i`: the value
that rank's parameter feeds into the collective (0 when absent, which the
symmetric loop never exercises). -/
def rankGradsAt (world : List (List Param)) (i : Nat) : List Int :=
  world.map fun ps => (((ps.get? i).bind Param.grad).getD 0)

/-- The value an `all_reduce(·, op=SUM)` leaves at parameter index `i` on
every rank: the cross-rank sum of the local gradients. -/
def crossRankSum (world : List (List Param)) (i : Nat) : Int :=
  (rankGradsAt world i).sum

/-- Effect of the gradient-synchronisation loop on one rank's parameter list
(indices counted from `i`): each participating parameter's gradient is
replaced by the cross-rank SUM. -/
def syncParams (world : List (List Param)) : Nat → List Param → List Param
  | _, [] => []
  | i, p :: ps =>
    (if p.requiresGrad && p.grad.isSome then
      { p with grad := some (crossRankSum world i) }
     else p) :: syncParams world (i + 1) ps

/-- Effect of the synchronisation loop (lines 156-159) executed symmetrically
on all ranks: the world of per-rank parameter lists after the collective
all-reduces. -/
def gradSyncStep (world : List (List Param)) : List (List Param) :=
  world.map fun ps => syncParams world 0 ps

/-- One `SAGEConv(in_feats, out_feats, aggregator_type)` layer, abstracted to
its constructor arguments. -/
structure SAGEConvSpec where
  inFeats : Nat
  outFeats : Nat
  aggregator : String
deriving DecidableEq, Repr

/-- `GraphSAGE.__init__` (lines 46-55): the `ModuleList` after appending the
input layer, the `n_layers - 1` hidden layers, and the output layer. -/
def sageLayers (inFeats nHidden nClasses nLayers : Nat) (agg : String) :
    List SAGEConvSpec :=
  ([⟨inFeats, nHidden, agg⟩]
    ++ (List.range (nLayers - 1)).map (fun _ => (⟨nHidden, nHidden, agg⟩ : SAGEConvSpec)))
  ++ [⟨nHidden, nClasses, agg⟩]

/-- Operations `GraphSAGE.forward` applies to the hidden state. -/
inductive FwdOp where
  | applyLayer (l : Nat)
  | applyActivation
  | applyDropout
deriving DecidableEq, Repr

/-- `GraphSAGE.forward` (lines 59-67): for each layer index `l` in order,
apply the layer, then — unless `l` is the last index — the activation and
dropout. -/
def forwardOps (numLayers : Nat) : List FwdOp :=
  (List.range numLayers).flatMap fun l =>
    [FwdOp.applyLayer l]
      ++ (if l ≠ numLayers - 1 then [FwdOp.applyActivation, FwdOp.applyDropout] else [])

/-- Discriminator for `load_tensors` events in a top-level trace. -/
def isLoadTensors : TopEvent → Bool
  | .loadTensorsFile _ => true
  | _ => false

/-- A sample partition entry holding all three required keys. -/
def sampleEntry : PartEntry :=
  { keys := ["node_feats", "edge_feats", "part_graph"]
    nodeFeatsFile := "part0/node_feat.dgl"
    edgeFeatsFile := "part0/edge_feat.dgl"
    partGraphFile := "part0/graph.dgl" }

/-- Sample partition metadata with an entry for rank 0. -/
def sampleMeta : PartMetadata :=
  { parts := fun k => if k = "part-0" then some sampleEntry else none
    numParts := 2
    nodeMap := [0, 5] }

/-- Sample parsed arguments: rank 0 of a 2-rank run on `ogbn-papers100M`. -/
def sampleArgs : TopArgs :=
  { dataset := "ogbn-papers100M", worldSize := 2, rank := 0, nr := 1
    nLayers := 3, nEpochs := 200, val := false }

/-- Sample tensors as returned by `load_tensors`. -/
def sampleNodeFeats : NodeFeatsDict :=
  { feat := ⟨.float32, [7, 8]⟩
    label := ⟨.float32, [3, 0]⟩
    train_mask := ⟨.uint8, [1, 0]⟩
    test_mask := ⟨.uint8, [0, 1]⟩
    val_mask := ⟨.uint8, [0, 0]⟩ }

/-- Sample initial `ndata` of the loaded partition graph: empty. -/
def sampleGraphNData : NData := fun _ => none

/-- A sample two-rank world with one parameter per rank, whose local
gradients are 1 and 3. -/
def sampleWorld : List (List Param) := [[⟨true, some 1⟩], [⟨true, some 3⟩]]

/-- Sample arguments whose dataset is not `ogbn-papers100M`. -/
def sampleBadArgs : TopArgs :=
  { dataset := "cora", worldSize := 2, rank := 0, nr := 1
    nLayers := 3, nEpochs := 200, val := false }

/-- A sample partition entry missing the `part_graph` key. -/
def sampleEntryBad : PartEntry :=
  { keys := ["node_feats", "edge_feats"]
    nodeFeatsFile := "part0/node_feat.dgl"
    edgeFeatsFile := "part0/edge_feat.dgl"
    partGraphFile := "part0/graph.dgl" }

/-- Sample partition metadata whose rank-0 entry misses `part_graph`. -/
def sampleMetaBad : PartMetadata :=
  { parts := fun k => if k = "part-0" then some sampleEntryBad else none
    numParts := 2
    nodeMap := [0, 5] }

/-- A sample parameter list: one trainable parameter with a gradient, one
frozen parameter, one parameter with no gradient. -/
def sampleParams : List Param :=
  [⟨true, some 5⟩, ⟨false, some 2⟩, ⟨true, none⟩]

/-! ## Helper lemmas -/

theorem partConfigPath_papers (w : Nat) :
    partConfigPath "ogbn-papers100M" w =
      .ok ("Libra_result_ogbn-papers100M/" ++ toString w ++
        "Communities/ogbn-papers100M.json") := by
  have hne : ("Libra_result_ogbn-papers100M/" ++ (toString w ++ "Communities")) ≠ "" := by
    intro h
    have h' := congrArg String.length h
    have h1 : ("Libra_result_ogbn-papers100M/" : String).length = 29 := rfl
    simp only [String.length_append, String.length_empty] at h'
    omega
  simp only [partConfigPath, osPathJoin, List.foldl, String.reduceEq, String.reduceAppend,
    reduceIte, if_neg hne]
  simp [String.append_assoc]

theorem partConfigPath_other (d : String) (w : Nat) (h : d ≠ "ogbn-papers100M") :
    partConfigPath d w = .error (PyError.nameError "DGLError") := by
  simp only [partConfigPath, if_neg h]
  rfl

theorem checkPartFiles_ok_iff (keys : List String) :
    checkPartFiles keys = .ok () ↔
      ("node_feats" ∈ keys ∧ "edge_feats" ∈ keys ∧ "part_graph" ∈ keys) := by
  unfold checkPartFiles
  by_cases h1 : "node_feats" ∈ keys <;> by_cases h2 : "edge_feats" ∈ keys <;>
    by_cases h3 : "part_graph" ∈ keys <;> simp [h1, h2, h3]

theorem checkPartFiles_error (keys : List String)
    (h : ¬ ("node_feats" ∈ keys ∧ "edge_feats" ∈ keys ∧ "part_graph" ∈ keys)) :
    ∃ m, checkPartFiles keys = .error (PyError.assertionError m) := by
  unfold checkPartFiles
  by_cases h1 : "node_feats" ∈ keys
  · by_cases h2 : "edge_feats" ∈ keys
    · by_cases h3 : "part_graph" ∈ keys
      · exact absurd ⟨h1, h2, h3⟩ h
      · exact ⟨"the partition does not contain graph structure.", by simp [h1, h2, h3]⟩
    · exact ⟨"the partition does not contain edge feature.", by simp [h1, h2]⟩
  · exact ⟨"the partition does not contain node features.", by simp [h1]⟩

theorem topLevel_reaches_call (a : TopArgs) (meta : PartMetadata)
    (nf : NodeFeatsDict) (gnd : NData) (entry : PartEntry)
    (hds : a.dataset = "ogbn-papers100M")
    (hentry : meta.parts ("part-" ++ toString a.rank) = some entry)
    (hkeys : checkPartFiles entry.keys = .ok ()) :
    topLevel a meta nf gnd =
      ⟨[TopEvent.openConfig ("Libra_result_ogbn-papers100M/" ++ toString a.worldSize ++
          "Communities/ogbn-papers100M.json"),
        TopEvent.loadTensorsFile entry.nodeFeatsFile,
        TopEvent.loadGraphsFile entry.partGraphFile,
        TopEvent.constructDrpa a.rank meta.numParts meta.nodeMap a.nr a.nLayers],
       some (storePartData gnd nf),
       .error (PyError.typeError
         "main() takes 2 positional arguments but 3 were given")⟩ := by
  simp only [topLevel, hds, partConfigPath_papers, hentry, hkeys]
  rfl

theorem topLevel_assert_fail (a : TopArgs) (meta : PartMetadata)
    (nf : NodeFeatsDict) (gnd : NData) (entry : PartEntry) (e : PyError)
    (hds : a.dataset = "ogbn-papers100M")
    (hentry : meta.parts ("part-" ++ toString a.rank) = some entry)
    (hkeys : checkPartFiles entry.keys = .error e) :
    topLevel a meta nf gnd =
      ⟨[TopEvent.openConfig ("Libra_result_ogbn-papers100M/" ++ toString a.worldSize ++
          "Communities/ogbn-papers100M.json")],
       none, .error e⟩ := by
  simp only [topLevel, hds, partConfigPath_papers, hentry, hkeys]

theorem topLevel_bad_dataset (a : TopArgs) (meta : PartMetadata)
    (nf : NodeFeatsDict) (gnd : NData) (h : a.dataset ≠ "ogbn-papers100M") :
    topLevel a meta nf gnd =
      ⟨[], none, .error (PyError.nameError "DGLError")⟩ := by
  simp only [topLevel, partConfigPath_other a.dataset a.worldSize h]

theorem storePartData_lookups (nd0 : NData) (nf : NodeFeatsDict) :
    storePartData nd0 nf "feat" = some nf.feat ∧
    storePartData nd0 nf "label" = some nf.label.long ∧
    storePartData nd0 nf "train_mask" = some nf.train_mask ∧
    storePartData nd0 nf "test_mask" = some nf.test_mask ∧
    storePartData nd0 nf "val_mask" = some nf.val_mask := by
  simp [storePartData, ndataSet]

theorem gradSyncEvents_shape (ps : List Param) :
    ∀ j, ∀ e ∈ gradSyncEvents j ps, ∃ i, e = RunEvent.gradAllReduce i ReduceOp.sum := by
  induction ps with
  | nil => intro j e he; simp [gradSyncEvents] at he
  | cons p ps ih =>
    intro j e he
    simp only [gradSyncEvents, List.mem_append] at he
    rcases he with he | he
    · by_cases hg : p.requiresGrad && p.grad.isSome
      · simp [hg] at he
        exact ⟨j, he⟩
      · simp [hg] at he
    · exact ih (j + 1) e he

theorem gradSyncEvents_mem_iff (ps : List Param) :
    ∀ j i op, RunEvent.gradAllReduce i op ∈ gradSyncEvents j ps ↔
      (op = ReduceOp.sum ∧ ∃ k p, i = j + k ∧ ps.get? k = some p ∧
        p.requiresGrad = true ∧ p.grad.isSome = true) := by
  induction ps with
  | nil => intro j i op; simp [gradSyncEvents]
  | cons p ps ih =>
    intro j i op
    simp only [gradSyncEvents, List.mem_append]
    constructor
    · rintro (he | he)
      · by_cases hg : p.requiresGrad && p.grad.isSome
        · simp only [hg, if_true, List.mem_singleton, RunEvent.gradAllReduce.injEq] at he
          refine ⟨he.2, 0, p, by omega, rfl, ?_, ?_⟩
          · exact (Bool.and_eq_true _ _ ▸ hg).1
          · exact (Bool.and_eq_true _ _ ▸ hg).2
        · simp [hg] at he
      · obtain ⟨hop, k, q, hik, hq, hr, hgr⟩ := (ih (j + 1) i op).mp he
        exact ⟨hop, k + 1, q, by omega, by simpa using hq, hr, hgr⟩
    · rintro ⟨hop, k, q, hik, hq, hr, hgr⟩
      cases k with
      | zero =>
        left
        simp only [List.get?] at hq
        obtain rfl : p = q := by injection hq
        simp [hr, hgr, hop, hik]
      | succ k =>
        right
        refine (ih (j + 1) i op).mpr ⟨hop, k, q, by omega, by simpa using hq, hr, hgr⟩

theorem syncParams_get? (world : List (List Param)) (ps : List Param) :
    ∀ j i p, ps.get? i = some p →
      (syncParams world j ps).get? i =
        some (if p.requiresGrad && p.grad.isSome then
          { p with grad := some (crossRankSum world (j + i)) } else p) := by
  induction ps with
  | nil => intro j i p hp; simp at hp
  | cons q ps ih =>
    intro j i p hp
    cases i with
    | zero =>
      obtain rfl : q = p := by injection hp
      simp [syncParams]
    | succ i =>
      simp only [List.get?] at hp
      have := ih (j + 1) i p hp
      simpa [syncParams, Nat.add_assoc, Nat.add_comm 1 i] using this

theorem gradSyncEvents_count_optStep (ps : List Param) :
    (gradSyncEvents 0 ps).count RunEvent.optStep = 0 := by
  rw [List.count_eq_zero]
  intro hmem
  obtain ⟨i, hi⟩ := gradSyncEvents_shape ps 0 _ hmem
  simp at hi

theorem epochTrace_count_optStep (ps : List Param) (v : Bool) :
    (epochTrace ps v).count RunEvent.optStep = 1 := by
  cases v <;>
    simp [epochTrace, List.count_append, gradSyncEvents_count_optStep]

theorem epochTrace_no_test (ps : List Param) (v : Bool) :
    RunEvent.testEvaluate ∉ epochTrace ps v ∧
    ∀ op, RunEvent.testAllReduce op ∉ epochTrace ps v := by
  constructor
  · intro h
    cases v <;> simp [epochTrace] at h <;>
      · obtain ⟨i, hi⟩ := gradSyncEvents_shape ps 0 _ h
        simp at hi
  · intro op h
    cases v <;> simp [epochTrace] at h <;>
      · obtain ⟨i, hi⟩ := gradSyncEvents_shape ps 0 _ h
        simp at hi

theorem flatten_replicate_count (n : Nat) (tr : List RunEvent) (e : RunEvent) :
    ((List.replicate n tr).flatten).count e = n * tr.count e := by
  induction n with
  | zero => simp
  | succ n ih =>
    simp only [List.replicate_succ, List.flatten_cons, List.count_append, ih]
    ring

theorem runTrace_eq (nEpochs : Nat) (ps : List Param) (v : Bool) :
    runTrace nEpochs ps v =
      (List.replicate nEpochs (epochTrace ps v)).flatten ++
        [RunEvent.testEvaluate, RunEvent.testAllReduce ReduceOp.sum] := by
  simp [runTrace, List.map_const']

theorem sageLayers_length (inF nH nC nL : Nat) (agg : String) (h : 1 ≤ nL) :
    (sageLayers inF nH nC nL agg).length = nL + 1 := by
  simp [sageLayers]
  omega

theorem sageLayers_first (inF nH nC nL : Nat) (agg : String) :
    (sageLayers inF nH nC nL agg)[0]? = some ⟨inF, nH, agg⟩ := by
  simp [sageLayers]

theorem sageLayers_middle (inF nH nC nL : Nat) (agg : String)
    (i : Nat) (h1 : 1 ≤ i) (h2 : i < nL) :
    (sageLayers inF nH nC nL agg)[i]? = some ⟨nH, nH, agg⟩ := by
  obtain ⟨j, rfl⟩ : ∃ j, i = j + 1 := ⟨i - 1, by omega⟩
  have hlen : j + 1 < ([(⟨inF, nH, agg⟩ : SAGEConvSpec)] ++
      (List.range (nL - 1)).map (fun _ => (⟨nH, nH, agg⟩ : SAGEConvSpec))).length := by
    simp
    omega
  rw [sageLayers, List.getElem?_append_left hlen]
  have hj : j < nL - 1 := by omega
  simp [List.getElem?_replicate_of_lt hj]

theorem sageLayers_last (inF nH nC nL : Nat) (agg : String) (h : 1 ≤ nL) :
    (sageLayers inF nH nC nL agg)[nL]? = some ⟨nH, nC, agg⟩ := by
  have hlen : ([(⟨inF, nH, agg⟩ : SAGEConvSpec)] ++
      (List.range (nL - 1)).map (fun _ => (⟨nH, nH, agg⟩ : SAGEConvSpec))).length = nL := by
    simp
    omega
  rw [sageLayers, List.getElem?_append_right hlen.le, hlen, Nat.sub_self]
  rfl

theorem forwardOps_closed (n : Nat) :
    forwardOps (n + 1) =
      ((List.range n).flatMap fun l =>
        [FwdOp.applyLayer l, FwdOp.applyActivation, FwdOp.applyDropout])
      ++ [FwdOp.applyLayer n] := by
  unfold forwardOps
  rw [List.range_succ, List.flatMap_append]
  congr 1
  · apply List.flatMap_congr
    intro l hl
    have hln : l ≠ n := by
      have := List.mem_range.mp hl
      omega
    simp [hln]
  · simp

theorem get?_map_rank (f : List Param → List Param) (l : List (List Param)) :
    ∀ n, (l.map f).get? n = (l.get? n).map f := by
  induction l with
  | nil => intro n; cases n <;> rfl
  | cons x xs ih =>
    intro n
    cases n with
    | zero => rfl
    | succ n => exact ih n

/-! ## Claim theorems -/

/-- Claim C1 (amended): the per-parameter all-reduce performed after the
backward pass leaves in each participating parameter's gradient the
cross-rank SUM of that parameter's local gradients; no division by the
number of ranks is performed. -/
theorem grad_allreduce_leaves_sum_c1 (world : List (List Param)) (r i : Nat)
    (ps : List Param) (p : Param)
    (hr : world.get? r = some ps) (hp : ps.get? i = some p)
    (hreq : p.requiresGrad = true) (hg : p.grad.isSome = true) :
    ∃ qs, (gradSyncStep world).get? r = some qs ∧
      qs.get? i = some { p with grad := some ((rankGradsAt world i).sum) } := by
  refine ⟨syncParams world 0 ps, ?_, ?_⟩
  · rw [gradSyncStep, get?_map_rank, hr]
    rfl
  · rw [syncParams_get? world ps 0 i p hp]
    simp [hreq, hg, crossRankSum]

/-- Witness for C1's amended theorem at the sample two-rank world. -/
theorem grad_allreduce_leaves_sum_c1_witness :
    ∃ qs, (gradSyncStep sampleWorld).get? 0 = some qs ∧
      qs.get? 0 = some { (⟨true, some 1⟩ : Param) with
        grad := some ((rankGradsAt sampleWorld 0).sum) } :=
  grad_allreduce_leaves_sum_c1 sampleWorld 0 0 [⟨true, some 1⟩] ⟨true, some 1⟩
    rfl rfl rfl rfl

/-- Claim C1 counterexample: with two ranks whose local gradients of the
single parameter are 1 and 3, the all-reduce leaves the sum 4 in each rank's
gradient, not the cross-rank average (1 + 3) / 2 = 2 the claim states. -/
theorem grad_allreduce_not_average_c1_cex :
    gradSyncStep sampleWorld =
      [[⟨true, some 4⟩], [⟨true, some 4⟩]] ∧
    ¬ gradSyncStep sampleWorld =
      [[⟨true, some (((1 : Int) + 3) / 2)⟩], [⟨true, some (((1 : Int) + 3) / 2)⟩]] := by
  decide

/-- Claim C2: the call `main(gobj, data, args.dataset)` passes three
positional arguments to the two-parameter `main`, so every execution that
reaches it raises a `TypeError` and `run` is never entered. -/
theorem main_call_raises_type_error_c2 (a : TopArgs) (meta : PartMetadata)
    (nf : NodeFeatsDict) (gnd : NData) (entry : PartEntry)
    (hds : a.dataset = "ogbn-papers100M")
    (hentry : meta.parts ("part-" ++ toString a.rank) = some entry)
    (hkeys : checkPartFiles entry.keys = .ok ()) :
    mainCallArgs.length = 3 ∧ mainParams.length = 2 ∧
    (topLevel a meta nf gnd).outcome =
      .error (PyError.typeError
        "main() takes 2 positional arguments but 3 were given") ∧
    TopEvent.enterMain ∉ (topLevel a meta nf gnd).trace ∧
    TopEvent.enterRun ∉ (topLevel a meta nf gnd).trace := by
  rw [topLevel_reaches_call a meta nf gnd entry hds hentry hkeys]
  refine ⟨rfl, rfl, rfl, ?_, ?_⟩ <;> simp

/-- Witness for C2 at the sample rank-0 configuration. -/
theorem main_call_raises_type_error_c2_witness :
    mainCallArgs.length = 3 ∧ mainParams.length = 2 ∧
    (topLevel sampleArgs sampleMeta sampleNodeFeats sampleGraphNData).outcome =
      .error (PyError.typeError
        "main() takes 2 positional arguments but 3 were given") ∧
    TopEvent.enterMain ∉
      (topLevel sampleArgs sampleMeta sampleNodeFeats sampleGraphNData).trace ∧
    TopEvent.enterRun ∉
      (topLevel sampleArgs sampleMeta sampleNodeFeats sampleGraphNData).trace :=
  main_call_raises_type_error_c2 sampleArgs sampleMeta sampleNodeFeats
    sampleGraphNData sampleEntry rfl rfl rfl

/-- Claim C3: in every epoch iteration, after `model.train()`, the forward
pass and loss computation are followed by `zero_grad` and `backward`; then
every parameter with `requires_grad` and a non-None gradient — and only
those — has its gradient all-reduced with `ReduceOp.SUM`; `optimizer.step()`
happens once, after all of these all-reduces. -/
theorem epoch_grad_sync_order_c3 (ps : List Param) (v : Bool) :
    ∃ G, epochTrace ps v =
        [RunEvent.modelTrain, RunEvent.forwardPass, RunEvent.lossCompute,
         RunEvent.zeroGrad, RunEvent.backwardPass] ++ G ++
        [RunEvent.optStep] ++
        (if v then [RunEvent.valEvaluate, RunEvent.valAllReduce ReduceOp.sum]
         else []) ∧
      (∀ e ∈ G, ∃ i, e = RunEvent.gradAllReduce i ReduceOp.sum) ∧
      (∀ i op, RunEvent.gradAllReduce i op ∈ G ↔
        (op = ReduceOp.sum ∧ ∃ p, ps.get? i = some p ∧
          p.requiresGrad = true ∧ p.grad.isSome = true)) ∧
      RunEvent.optStep ∉ G := by
  refine ⟨gradSyncEvents 0 ps, rfl, gradSyncEvents_shape ps 0, ?_, ?_⟩
  · intro i op
    rw [gradSyncEvents_mem_iff]
    constructor
    · rintro ⟨hop, k, p, hik, hp, hr, hg⟩
      have hki : k = i := by omega
      subst hki
      exact ⟨hop, p, hp, hr, hg⟩
    · rintro ⟨hop, p, hp, hr, hg⟩
      exact ⟨hop, i, p, by omega, hp, hr, hg⟩
  · intro hmem
    obtain ⟨i, hi⟩ := gradSyncEvents_shape ps 0 _ hmem
    simp at hi

/-- Witness for C3 at the sample parameter list. -/
theorem epoch_grad_sync_order_c3_witness :
    ∃ G, epochTrace sampleParams true =
        [RunEvent.modelTrain, RunEvent.forwardPass, RunEvent.lossCompute,
         RunEvent.zeroGrad, RunEvent.backwardPass] ++ G ++
        [RunEvent.optStep] ++
        (if true then [RunEvent.valEvaluate, RunEvent.valAllReduce ReduceOp.sum]
         else []) ∧
      (∀ e ∈ G, ∃ i, e = RunEvent.gradAllReduce i ReduceOp.sum) ∧
      (∀ i op, RunEvent.gradAllReduce i op ∈ G ↔
        (op = ReduceOp.sum ∧ ∃ p, sampleParams.get? i = some p ∧
          p.requiresGrad = true ∧ p.grad.isSome = true)) ∧
      RunEvent.optStep ∉ G :=
  epoch_grad_sync_order_c3 sampleParams true

/-- Claim C4: the loaded tensors `feat`, `label`, `train_mask`, `test_mask`,
and `val_mask` are stored under the same keys in the partition graph's
`ndata`, the label converted to int64, and the only `load_tensors` call is on
the node-feature file of the rank's own `part-{rank}` metadata entry. -/
theorem part_tensor_loading_c4 (a : TopArgs) (meta : PartMetadata)
    (nf : NodeFeatsDict) (gnd : NData) (entry : PartEntry)
    (hds : a.dataset = "ogbn-papers100M")
    (hentry : meta.parts ("part-" ++ toString a.rank) = some entry)
    (hkeys : checkPartFiles entry.keys = .ok ()) :
    (topLevel a meta nf gnd).ndata = some (storePartData gnd nf) ∧
    storePartData gnd nf "feat" = some nf.feat ∧
    storePartData gnd nf "label" = some nf.label.long ∧
    storePartData gnd nf "train_mask" = some nf.train_mask ∧
    storePartData gnd nf "test_mask" = some nf.test_mask ∧
    storePartData gnd nf "val_mask" = some nf.val_mask ∧
    nf.label.long.dtype = DType.int64 ∧
    (topLevel a meta nf gnd).trace.filter isLoadTensors =
      [TopEvent.loadTensorsFile entry.nodeFeatsFile] := by
  rw [topLevel_reaches_call a meta nf gnd entry hds hentry hkeys]
  obtain ⟨h1, h2, h3, h4, h5⟩ := storePartData_lookups gnd nf
  exact ⟨rfl, h1, h2, h3, h4, h5, rfl, by simp [isLoadTensors]⟩

/-- Witness for C4 at the sample rank-0 configuration. -/
theorem part_tensor_loading_c4_witness :
    (topLevel sampleArgs sampleMeta sampleNodeFeats sampleGraphNData).ndata =
      some (storePartData sampleGraphNData sampleNodeFeats) ∧
    storePartData sampleGraphNData sampleNodeFeats "feat" =
      some sampleNodeFeats.feat ∧
    storePartData sampleGraphNData sampleNodeFeats "label" =
      some sampleNodeFeats.label.long ∧
    storePartData sampleGraphNData sampleNodeFeats "train_mask" =
      some sampleNodeFeats.train_mask ∧
    storePartData sampleGraphNData sampleNodeFeats "test_mask" =
      some sampleNodeFeats.test_mask ∧
    storePartData sampleGraphNData sampleNodeFeats "val_mask" =
      some sampleNodeFeats.val_mask ∧
    sampleNodeFeats.label.long.dtype = DType.int64 ∧
    (topLevel sampleArgs sampleMeta sampleNodeFeats sampleGraphNData).trace.filter
        isLoadTensors =
      [TopEvent.loadTensorsFile sampleEntry.nodeFeatsFile] :=
  part_tensor_loading_c4 sampleArgs sampleMeta sampleNodeFeats sampleGraphNData
    sampleEntry rfl rfl rfl

/-- Claim C5 (code bug): at a concrete valid configuration the drpa object is
constructed from (rank, num_parts, node_map, nr, n_layers), but because the
call `main(gobj, data, args.dataset)` raises a `TypeError`, `run` is never
entered and `drpa_finalize` is never invoked, contrary to the claimed
behaviour that the object is passed into the run and finalized afterwards. -/
theorem drpa_run_never_entered_c5 :
    (topLevel sampleArgs sampleMeta sampleNodeFeats sampleGraphNData).trace.count
        (TopEvent.constructDrpa 0 2 [0, 5] 1 3) = 1 ∧
    TopEvent.enterRun ∉
      (topLevel sampleArgs sampleMeta sampleNodeFeats sampleGraphNData).trace ∧
    TopEvent.drpaFinalize ∉
      (topLevel sampleArgs sampleMeta sampleNodeFeats sampleGraphNData).trace ∧
    (topLevel sampleArgs sampleMeta sampleNodeFeats sampleGraphNData).outcome =
      .error (PyError.typeError
        "main() takes 2 positional arguments but 3 were given") :=
  ⟨by decide, by decide, by decide, rfl⟩

/-- Claim C6: for `--dataset ogbn-papers100M` the partition config path is
`Libra_result_ogbn-papers100M/<world_size>Communities/ogbn-papers100M.json`;
for every other dataset an error is raised before any partition metadata or
tensors are loaded (the trace is empty and no graph data is produced). -/
theorem dataset_dispatch_c6 (w : Nat) (a : TopArgs) (meta : PartMetadata)
    (nf : NodeFeatsDict) (gnd : NData) :
    partConfigPath "ogbn-papers100M" w =
      .ok ("Libra_result_ogbn-papers100M/" ++ toString w ++
        "Communities/ogbn-papers100M.json") ∧
    (a.dataset ≠ "ogbn-papers100M" →
      topLevel a meta nf gnd =
        ⟨[], none, .error (PyError.nameError "DGLError")⟩) :=
  ⟨partConfigPath_papers w, fun h => topLevel_bad_dataset a meta nf gnd h⟩

/-- Witness for C6: the unknown dataset "cora" errors with an empty trace. -/
theorem dataset_dispatch_c6_witness :
    topLevel sampleBadArgs sampleMeta sampleNodeFeats sampleGraphNData =
      ⟨[], none, .error (PyError.nameError "DGLError")⟩ :=
  (dataset_dispatch_c6 2 sampleBadArgs sampleMeta sampleNodeFeats
    sampleGraphNData).2 (by decide)

/-- Claim C7: if the rank's partition entry lacks any of `node_feats`,
`edge_feats`, `part_graph`, an assertion error is raised and no tensor or
graph file is loaded (the trace stops at opening the config); when all three
keys are present no assertion fires. -/
theorem partition_asserts_c7 (a : TopArgs) (meta : PartMetadata)
    (nf : NodeFeatsDict) (gnd : NData) (entry : PartEntry) (keys : List String) :
    (("node_feats" ∈ keys ∧ "edge_feats" ∈ keys ∧ "part_graph" ∈ keys) →
      checkPartFiles keys = .ok ()) ∧
    (¬ ("node_feats" ∈ keys ∧ "edge_feats" ∈ keys ∧ "part_graph" ∈ keys) →
      ∃ m, checkPartFiles keys = .error (PyError.assertionError m)) ∧
    (a.dataset = "ogbn-papers100M" →
      meta.parts ("part-" ++ toString a.rank) = some entry →
      ∀ m, checkPartFiles entry.keys = .error (PyError.assertionError m) →
        topLevel a meta nf gnd =
          ⟨[TopEvent.openConfig ("Libra_result_ogbn-papers100M/" ++
              toString a.worldSize ++ "Communities/ogbn-papers100M.json")],
           none, .error (PyError.assertionError m)⟩) :=
  ⟨fun h => (checkPartFiles_ok_iff keys).mpr h,
   checkPartFiles_error keys,
   fun hds hentry _ hm => topLevel_assert_fail a meta nf gnd entry _ hds hentry hm⟩

/-- Witness for C7: a complete entry passes the asserts; an entry missing
`part_graph` stops the sample run at the config-open step. -/
theorem partition_asserts_c7_witness :
    checkPartFiles ["node_feats", "edge_feats", "part_graph"] = .ok () ∧
    topLevel sampleArgs sampleMetaBad sampleNodeFeats sampleGraphNData =
      ⟨[TopEvent.openConfig ("Libra_result_ogbn-papers100M/" ++
          toString sampleArgs.worldSize ++ "Communities/ogbn-papers100M.json")],
       none, .error (PyError.assertionError
         "the partition does not contain graph structure.")⟩ :=
  ⟨(partition_asserts_c7 sampleArgs sampleMetaBad sampleNodeFeats
      sampleGraphNData sampleEntryBad
      ["node_feats", "edge_feats", "part_graph"]).1 (by decide),
   (partition_asserts_c7 sampleArgs sampleMetaBad sampleNodeFeats
      sampleGraphNData sampleEntryBad sampleEntryBad.keys).2.2 rfl rfl
      "the partition does not contain graph structure." rfl⟩

/-- Claim C8: for every non-negative `--n-epochs`, the epoch loop of `run`
executes exactly that many iterations (one `optimizer.step()` per iteration)
and then a single final test-set evaluation and accuracy all-reduce follow
all epoch work. -/
theorem epoch_loop_iterations_c8 (n : Nat) (ps : List Param) (v : Bool) :
    (runTrace n ps v).count RunEvent.optStep = n ∧
    (runTrace n ps v).count RunEvent.testEvaluate = 1 ∧
    (runTrace n ps v).count (RunEvent.testAllReduce ReduceOp.sum) = 1 ∧
    ∃ pre, runTrace n ps v =
        pre ++ [RunEvent.testEvaluate, RunEvent.testAllReduce ReduceOp.sum] ∧
      RunEvent.testEvaluate ∉ pre ∧
      RunEvent.testAllReduce ReduceOp.sum ∉ pre := by
  have hrt := runTrace_eq n ps v
  have hpre_mem : ∀ e ∈ (List.replicate n (epochTrace ps v)).flatten,
      e ∈ epochTrace ps v := by
    intro e he
    obtain ⟨l, hl, hel⟩ := List.mem_flatten.mp he
    rwa [List.eq_of_mem_replicate hl] at hel
  refine ⟨?_, ?_, ?_,
    (List.replicate n (epochTrace ps v)).flatten, hrt, ?_, ?_⟩
  · rw [hrt, List.count_append, flatten_replicate_count, epochTrace_count_optStep]
    simp
  · rw [hrt, List.count_append, flatten_replicate_count,
      List.count_eq_zero.mpr (epochTrace_no_test ps v).1]
    simp
  · rw [hrt, List.count_append, flatten_replicate_count,
      List.count_eq_zero.mpr ((epochTrace_no_test ps v).2 ReduceOp.sum)]
    simp
  · intro h
    exact (epochTrace_no_test ps v).1 (hpre_mem _ h)
  · intro h
    exact (epochTrace_no_test ps v).2 ReduceOp.sum (hpre_mem _ h)

/-- Witness for C8 at two epochs over the sample parameters. -/
theorem epoch_loop_iterations_c8_witness :
    (runTrace 2 sampleParams false).count RunEvent.optStep = 2 ∧
    (runTrace 2 sampleParams false).count RunEvent.testEvaluate = 1 ∧
    (runTrace 2 sampleParams false).count (RunEvent.testAllReduce ReduceOp.sum) = 1 ∧
    ∃ pre, runTrace 2 sampleParams false =
        pre ++ [RunEvent.testEvaluate, RunEvent.testAllReduce ReduceOp.sum] ∧
      RunEvent.testEvaluate ∉ pre ∧
      RunEvent.testAllReduce ReduceOp.sum ∉ pre :=
  epoch_loop_iterations_c8 2 sampleParams false

/-- Claim C9: no import binds the bare name `DGLError` (only `DGLGraph` is
imported from `dgl`), so the `raise DGLError(...)` statement for an
unrecognized dataset itself fails with a `NameError`. -/
theorem dglerror_unbound_c9 :
    "DGLError" ∉ moduleBoundNames ∧
    "DGLGraph" ∈ moduleBoundNames ∧
    raiseUnknownDataset = PyError.nameError "DGLError" ∧
    ∀ w, partConfigPath "cora" w = .error (PyError.nameError "DGLError") :=
  ⟨by decide, by decide, rfl, fun w => rfl⟩

/-- Claim C10: a GraphSAGE model built with `n_layers ≥ 1` has exactly
`n_layers + 1` SAGEConv layers — input `in_feats → n_hidden`, `n_layers - 1`
hidden `n_hidden → n_hidden`, output `n_hidden → n_classes` — and the forward
pass applies activation then dropout after every layer except the last. -/
theorem graphsage_layer_structure_c10 (inF nH nC nL : Nat) (agg : String)
    (h : 1 ≤ nL) :
    (sageLayers inF nH nC nL agg).length = nL + 1 ∧
    (sageLayers inF nH nC nL agg)[0]? = some ⟨inF, nH, agg⟩ ∧
    (∀ i, 1 ≤ i → i < nL →
      (sageLayers inF nH nC nL agg)[i]? = some ⟨nH, nH, agg⟩) ∧
    (sageLayers inF nH nC nL agg)[nL]? = some ⟨nH, nC, agg⟩ ∧
    forwardOps (sageLayers inF nH nC nL agg).length =
      ((List.range nL).flatMap fun l =>
        [FwdOp.applyLayer l, FwdOp.applyActivation, FwdOp.applyDropout]) ++
      [FwdOp.applyLayer nL] := by
  refine ⟨sageLayers_length inF nH nC nL agg h,
    sageLayers_first inF nH nC nL agg,
    fun i h1 h2 => sageLayers_middle inF nH nC nL agg i h1 h2,
    sageLayers_last inF nH nC nL agg h, ?_⟩
  rw [sageLayers_length inF nH nC nL agg h]
  exact forwardOps_closed nL

/-- Witness for C10 at the script's default `n_layers = 3` and aggregator
`gcn`. -/
theorem graphsage_layer_structure_c10_witness :
    (sageLayers 128 64 172 3 "gcn").length = 4 ∧
    (sageLayers 128 64 172 3 "gcn")[0]? = some ⟨128, 64, "gcn"⟩ ∧
    (sageLayers 128 64 172 3 "gcn")[2]? = some ⟨64, 64, "gcn"⟩ ∧
    (sageLayers 128 64 172 3 "gcn")[3]? = some ⟨64, 172, "gcn"⟩ := by
  refine ⟨(graphsage_layer_structure_c10 128 64 172 3 "gcn" (by decide)).1,
    (graphsage_layer_structure_c10 128 64 172 3 "gcn" (by decide)).2.1,
    (graphsage_layer_structure_c10 128 64 172 3 "gcn" (by decide)).2.2.1 2
      (by decide) (by decide),
    (graphsage_layer_structure_c10 128 64 172 3 "gcn" (by decide)).2.2.2.1⟩

end TrainDistDrpa
